import Mathlib

/-!
Verification of the retrieval router of R2R
(`py/core/main/api/v3/retrieval_router.py`): the search-settings
resolution engine (`merge_search_settings`, `_prepare_search_settings`),
the per-caller filter selection, the streaming response chunker
(`stream_generator`), and the per-endpoint orchestration glue
(`search_app`, `rag_app`, `agent_app`, `reasoning_agent_app`,
`completion`).

Python values carrying pydantic "explicitly set" markers are embedded
with explicit `Option` fields (an override field is `none` when the
caller did not set it), and `model_dump` / dict-update / re-construction
semantics are embedded as association lists over a tagged value type, so
the dict-based merge of the source is represented step by step rather
than being collapsed into a field-wise definition.
-/

namespace R2R

/-- Filter expression trees (the `filters` field of `SearchSettings`):
atomic comparisons such as `{"document_id": {"$eq": "..."}}` combined
with `$and` / `$or`. -/
inductive FilterExpr where
  | pred (field : String) (op : String) (value : String)
  | and (a b : FilterExpr)
  | or (a b : FilterExpr)
  deriving DecidableEq, Repr

/-- Truth of a filter expression in an environment assigning a truth
value to each atomic comparison. -/
def FilterExpr.eval (env : String → String → String → Bool) : FilterExpr → Bool
  | .pred f o v => env f o v
  | .and a b => a.eval env && b.eval env
  | .or a b => a.eval env || b.eval env

/-- Nested chunk-level search settings (`chunk_settings`). -/
structure ChunkSettings where
  limit : Nat
  index_measure : String
  deriving DecidableEq, Repr

/-- Nested graph-level search settings (`graph_settings`). -/
structure GraphSettings where
  enabled : Bool
  limit : Nat
  deriving DecidableEq, Repr

/-- Modelled from the spec: the `SearchSettings` pydantic model of
`core.base` (not under `src/`) — a request-scoped value with a
use-semantic-search flag, a use-full-text-search flag, a filter
expression tree (`none` embeds an empty/absent caller filter), a result
limit, and nested chunk-level and graph-level settings. -/
structure SearchSettings where
  use_semantic_search : Bool
  use_fulltext_search : Bool
  filters : Option FilterExpr
  limit : Nat
  chunk_settings : ChunkSettings
  graph_settings : GraphSettings
  deriving DecidableEq, Repr

/-- Modelled from the spec: the type defaults of the `SearchSettings`
model of `core.base` (not under `src/`) — the value `SearchSettings()`
with every field at its declared default. -/
def SearchSettings.typeDefault : SearchSettings :=
  { use_semantic_search := true
    use_fulltext_search := false
    filters := none
    limit := 10
    chunk_settings := { limit := 20, index_measure := "cosine_distance" }
    graph_settings := { enabled := true, limit := 10 } }

/-- A caller-supplied `SearchSettings` body together with its pydantic
"fields explicitly set" markers: `none` in a field means the caller did
not set it, so `model_dump(exclude_unset=True)` omits it. -/
structure SearchSettingsInput where
  use_semantic_search : Option Bool
  use_fulltext_search : Option Bool
  filters : Option (Option FilterExpr)
  limit : Option Nat
  chunk_settings : Option ChunkSettings
  graph_settings : Option GraphSettings
  deriving DecidableEq, Repr

/-- The caller-visible `SearchSettings` value a request body denotes:
explicitly set fields hold the caller's value, unset fields hold the
type defaults (pydantic construction). -/
def SearchSettingsInput.materialize (o : SearchSettingsInput) : SearchSettings :=
  { use_semantic_search :=
      o.use_semantic_search.getD SearchSettings.typeDefault.use_semantic_search
    use_fulltext_search :=
      o.use_fulltext_search.getD SearchSettings.typeDefault.use_fulltext_search
    filters := (o.filters).getD SearchSettings.typeDefault.filters
    limit := o.limit.getD SearchSettings.typeDefault.limit
    chunk_settings := o.chunk_settings.getD SearchSettings.typeDefault.chunk_settings
    graph_settings := o.graph_settings.getD SearchSettings.typeDefault.graph_settings }

/-- Tagged field values, the codomain of `model_dump`. -/
inductive Val where
  | b (x : Bool)
  | n (x : Nat)
  | flt (x : Option FilterExpr)
  | cs (x : ChunkSettings)
  | gs (x : GraphSettings)
  deriving DecidableEq, Repr

/-- `SearchSettings.model_dump()`: every field, as a keyed dict. -/
def SearchSettings.model_dump (s : SearchSettings) : List (String × Val) :=
  [ ("use_semantic_search", .b s.use_semantic_search)
  , ("use_fulltext_search", .b s.use_fulltext_search)
  , ("filters", .flt s.filters)
  , ("limit", .n s.limit)
  , ("chunk_settings", .cs s.chunk_settings)
  , ("graph_settings", .gs s.graph_settings) ]

/-- `model_dump(exclude_unset=True)` on a caller-supplied body: only the
explicitly set fields appear in the dict. -/
def SearchSettingsInput.dumpExcludeUnset (o : SearchSettingsInput) : List (String × Val) :=
  (match o.use_semantic_search with
   | some v => [("use_semantic_search", Val.b v)]
   | none => []) ++
  (match o.use_fulltext_search with
   | some v => [("use_fulltext_search", Val.b v)]
   | none => []) ++
  (match o.filters with
   | some v => [("filters", Val.flt v)]
   | none => []) ++
  (match o.limit with
   | some v => [("limit", Val.n v)]
   | none => []) ++
  (match o.chunk_settings with
   | some v => [("chunk_settings", Val.cs v)]
   | none => []) ++
  (match o.graph_settings with
   | some v => [("graph_settings", Val.gs v)]
   | none => [])

/-- `d[k] = v` on a keyed dict: replace the value at `k`, or append the
pair when `k` is absent. -/
def setKey : List (String × Val) → String → Val → List (String × Val)
  | [], k, v => [(k, v)]
  | (k', v') :: rest, k, v =>
      if k' = k then (k, v) :: rest else (k', v') :: setKey rest k v

/-- The `for k, v in overrides_dict.items(): base_dict[k] = v` loop of
`merge_search_settings`. -/
def dictUpdate (base upd : List (String × Val)) : List (String × Val) :=
  upd.foldl (fun d kv => setKey d kv.1 kv.2) base

/-- Dict lookup with a typed projection, as used when re-constructing a
`SearchSettings` from the merged dict: a missing or wrongly typed key
falls back to the field's type default (pydantic construction). -/
def getB (d : List (String × Val)) (k : String) (dflt : Bool) : Bool :=
  match d.lookup k with | some (.b x) => x | _ => dflt

def getN (d : List (String × Val)) (k : String) (dflt : Nat) : Nat :=
  match d.lookup k with | some (.n x) => x | _ => dflt

def getFlt (d : List (String × Val)) (k : String) (dflt : Option FilterExpr) :
    Option FilterExpr :=
  match d.lookup k with | some (.flt x) => x | _ => dflt

def getCs (d : List (String × Val)) (k : String) (dflt : ChunkSettings) : ChunkSettings :=
  match d.lookup k with | some (.cs x) => x | _ => dflt

def getGs (d : List (String × Val)) (k : String) (dflt : GraphSettings) : GraphSettings :=
  match d.lookup k with | some (.gs x) => x | _ => dflt

/-- `SearchSettings(**merged_dict)`: construct a settings value from the
merged dict. -/
def SearchSettings.ofDict (d : List (String × Val)) : SearchSettings :=
  { use_semantic_search :=
      getB d "use_semantic_search" SearchSettings.typeDefault.use_semantic_search
    use_fulltext_search :=
      getB d "use_fulltext_search" SearchSettings.typeDefault.use_fulltext_search
    filters := getFlt d "filters" SearchSettings.typeDefault.filters
    limit := getN d "limit" SearchSettings.typeDefault.limit
    chunk_settings := getCs d "chunk_settings" SearchSettings.typeDefault.chunk_settings
    graph_settings := getGs d "graph_settings" SearchSettings.typeDefault.graph_settings }

/-- `merge_search_settings(base, overrides)` from the source: dump both
to dicts (`exclude_unset=True` on the overrides), update the base dict
with every override entry, and re-construct a `SearchSettings`. -/
def merge_search_settings (base : SearchSettings) (overrides : SearchSettingsInput) :
    SearchSettings :=
  SearchSettings.ofDict (dictUpdate base.model_dump overrides.dumpExcludeUnset)

/-- `SearchMode`: one of `basic | advanced | custom`. -/
inductive SearchMode where
  | basic
  | advanced
  | custom
  deriving DecidableEq, Repr

/-- The authenticated caller identity, as far as filter selection is
concerned: it determines one scope predicate. -/
structure Scope where
  scopePredicate : FilterExpr
  deriving DecidableEq, Repr

/-- The mode-defaults registry (`SearchSettings.get_default`): a mapping
from preset mode to its canned settings template, passed in as a value
per the design notes. -/
def Registry : Type := SearchMode → SearchSettings

/-- Modelled from the spec: `select_search_filters` of `core.base` (not
under `src/`) — computes the caller-scope predicate from the identity
and combines it with the settings' filter expression (if any) using
logical AND; the scope predicate alone when the settings carry no
filter. -/
def select_search_filters (auth_user : Scope) (settings : SearchSettings) : FilterExpr :=
  match settings.filters with
  | none => auth_user.scopePredicate
  | some f => .and auth_user.scopePredicate f

/-- The settings value `_prepare_search_settings` holds just before the
`effective_settings.filters = select_search_filters(...)` assignment:
mode defaults merged with overrides for `basic`/`advanced`, the
caller-supplied settings (or type defaults) for `custom`. -/
def effectiveBeforeFilters (registry : Registry) (search_mode : SearchMode)
    (search_settings : Option SearchSettingsInput) : SearchSettings :=
  match search_mode with
  | .custom =>
      (search_settings.map SearchSettingsInput.materialize).getD SearchSettings.typeDefault
  | m =>
      match search_settings with
      | some o => merge_search_settings (registry m) o
      | none => registry m

/-- `_prepare_search_settings`: resolve the effective settings, then
overwrite their `filters` field with the selected per-caller filter. -/
def prepare_search_settings (registry : Registry) (auth_user : Scope)
    (search_mode : SearchMode) (search_settings : Option SearchSettingsInput) :
    SearchSettings :=
  let eff := effectiveBeforeFilters registry search_mode search_settings
  { eff with filters := some (select_search_filters auth_user eff) }

/-- The attribute values of the caller-supplied settings object after
`_prepare_search_settings` returns. In `custom` mode with settings
supplied, `effective_settings` aliases the caller's object
(`effective_settings = search_settings or SearchSettings()`), so the
`effective_settings.filters = ...` assignment mutates the caller's
object in place; in the other modes `merge_search_settings` (or
`get_default`) builds a fresh object and the caller's object is
untouched. -/
def callerSettingsAfter (registry : Registry) (auth_user : Scope)
    (search_mode : SearchMode) (search_settings : Option SearchSettingsInput) :
    Option SearchSettings :=
  match search_mode, search_settings with
  | .custom, some o =>
      some (prepare_search_settings registry auth_user .custom (some o))
  | _, some o => some o.materialize
  | _, none => none

/-- The frame-size bound of the streaming chunker. -/
def frameSize : Nat := 1024

/-- The `for i in range(0, len(chunk), 1024): yield chunk[i : i + 1024]`
loop: split a fragment into contiguous slices of at most `frameSize`
units. -/
def splitEvery {α : Type} : List α → List (List α)
  | [] => []
  | x :: xs =>
      ((x :: xs).take frameSize) :: splitEvery ((x :: xs).drop frameSize)
termination_by l => l.length
decreasing_by
  simp [frameSize]
  omega

/-- The per-fragment body of `stream_generator`: fragments longer than
1024 units are split, all others pass through as one frame. -/
def chunkFragment {α : Type} (chunk : List α) : List (List α) :=
  if chunk.length > frameSize then splitEvery chunk else [chunk]

/-- `stream_generator` over a finite upstream fragment sequence: the
frames emitted for each fragment in order. -/
def stream_generator {α : Type} (frags : List (List α)) : List (List α) :=
  (frags.map chunkFragment).flatten

/-- The runtime state of the `stream_generator` async generator: frames
already produced from the current fragment but not yet pulled by the
consumer, fragments not yet requested from the backend, the number of
fragments requested so far, and whether the generator has been closed
(its `GeneratorExit` path taken). -/
structure StreamGenState (α : Type) where
  pending : List (List α)
  upstream : List (List α)
  requests : Nat
  closed : Bool
  deriving DecidableEq, Repr

/-- The generator as first created from a backend fragment sequence. -/
def initGen {α : Type} (frags : List (List α)) : StreamGenState α :=
  ⟨[], frags, 0, false⟩

/-- One consumer pull on the generator: emit the next queued frame, or
request the next fragment from the backend (`async for` step), chunk it
and emit its first frame; a closed or exhausted generator emits
nothing. -/
def pullFrame {α : Type} (s : StreamGenState α) :
    Option (List α) × StreamGenState α :=
  if s.closed then (none, s)
  else
    match s.pending with
    | f :: rest => (some f, { s with pending := rest })
    | [] =>
      match s.upstream with
      | [] => (none, s)
      | frag :: rest =>
        match chunkFragment frag with
        | f :: fs => (some f, ⟨fs, rest, s.requests + 1, false⟩)
        | [] => (none, ⟨[], rest, s.requests + 1, false⟩)

/-- Consumer cancellation (`GeneratorExit` delivered at the current
yield): the handler returns, so the close completes normally (`ok`) and
the generator is marked closed. -/
def closeGen {α : Type} (s : StreamGenState α) :
    Except String Unit × StreamGenState α :=
  (Except.ok (), { s with closed := true })

/-- `n` further consumer pulls. -/
def pullMany {α : Type} : Nat → StreamGenState α → StreamGenState α
  | 0, s => s
  | n + 1, s => pullMany n (pullFrame s).2

/-- `R2RException(message, status_code)`. -/
structure R2RException where
  message : String
  status_code : Nat
  deriving DecidableEq, Repr

/-- Modelled from the spec: the `GenerationConfig` pydantic model of
`core.base` (not under `src/`) — a model identifier, a stream flag, and
the pydantic marker recording whether the caller explicitly set the
`model` field (membership of `"model"` in `__fields_set__`). -/
structure GenerationConfig where
  model : String
  model_in_fields_set : Bool
  stream : Bool
  deriving DecidableEq, Repr

/-- The `if "model" not in config.__fields_set__: config.model =
self.config.app.quality_llm` statement, shared verbatim by the rag,
agent and reasoning-agent endpoints. -/
def applyDefaultModel (quality_llm : String) (cfg : GenerationConfig) :
    GenerationConfig :=
  if cfg.model_in_fields_set then cfg else { cfg with model := quality_llm }

/-- A chat message: role and content. -/
structure Message where
  role : String
  content : String
  deriving DecidableEq, Repr

/-- The arguments `search_app` hands to
`self.services.retrieval.search`. -/
structure SearchBackendCall where
  query : String
  search_settings : SearchSettings
  deriving DecidableEq, Repr

/-- `search_app`: reject an empty query with a 400 `R2RException`,
otherwise resolve settings and call the search backend. -/
def search_app (registry : Registry) (auth_user : Scope) (query : String)
    (search_mode : SearchMode) (search_settings : Option SearchSettingsInput) :
    Except R2RException SearchBackendCall :=
  if query = "" then
    Except.error ⟨"Query cannot be empty", 400⟩
  else
    Except.ok
      { query
        search_settings :=
          prepare_search_settings registry auth_user search_mode search_settings }

/-- The arguments `rag_app` hands to `self.services.retrieval.rag`. -/
structure RagBackendCall where
  query : String
  search_settings : SearchSettings
  rag_generation_config : GenerationConfig
  task_prompt_override : Option String
  include_title_if_available : Bool
  deriving DecidableEq, Repr

/-- `rag_app` up to the backend call: inject the default model when the
caller did not set one, resolve settings, and call the rag backend —
with no emptiness check on the query. -/
def rag_app (registry : Registry) (quality_llm : String) (auth_user : Scope)
    (query : String) (search_mode : SearchMode)
    (search_settings : Option SearchSettingsInput)
    (rag_generation_config : GenerationConfig)
    (task_prompt_override : Option String)
    (include_title_if_available : Bool) :
    Except R2RException RagBackendCall :=
  Except.ok
    { query
      search_settings :=
        prepare_search_settings registry auth_user search_mode search_settings
      rag_generation_config := applyDefaultModel quality_llm rag_generation_config
      task_prompt_override
      include_title_if_available }

/-- The arguments the agent endpoints hand to
`self.services.retrieval.agent`. -/
structure AgentBackendCall where
  message : Option Message
  messages : Option (List Message)
  search_settings : SearchSettings
  rag_generation_config : GenerationConfig
  task_prompt_override : Option String
  include_title_if_available : Bool
  max_tool_context_length : Option Nat
  conversation_id : Option String
  use_system_context : Option Bool
  override_tools : Option (List String)
  reasoning_agent : Bool
  deriving DecidableEq, Repr

/-- The backend call `agent_app` builds: default model injected when
unset, settings resolved from the caller's mode and overrides, all
caller parameters forwarded, `reasoning_agent` left at its `False`
default. -/
def agent_backend_call (registry : Registry) (quality_llm : String)
    (auth_user : Scope) (message : Option Message)
    (messages : Option (List Message)) (search_mode : SearchMode)
    (search_settings : Option SearchSettingsInput)
    (rag_generation_config : GenerationConfig)
    (task_prompt_override : Option String)
    (include_title_if_available : Bool) (conversation_id : Option String)
    (tools : Option (List String)) (max_tool_context_length : Option Nat)
    (use_system_context : Option Bool) : AgentBackendCall :=
  { message
    messages
    search_settings :=
      prepare_search_settings registry auth_user search_mode search_settings
    rag_generation_config := applyDefaultModel quality_llm rag_generation_config
    task_prompt_override
    include_title_if_available
    max_tool_context_length
    conversation_id
    use_system_context
    override_tools := tools
    reasoning_agent := false }

/-- `agent_app`: build the backend call and wrap any failure the backend
raises into `R2RException(str(e), 500)` (the `except Exception as e`
handler). -/
def agent_app {ρ : Type} (registry : Registry) (quality_llm : String)
    (auth_user : Scope) (message : Option Message)
    (messages : Option (List Message)) (search_mode : SearchMode)
    (search_settings : Option SearchSettingsInput)
    (rag_generation_config : GenerationConfig)
    (task_prompt_override : Option String)
    (include_title_if_available : Bool) (conversation_id : Option String)
    (tools : Option (List String)) (max_tool_context_length : Option Nat)
    (use_system_context : Option Bool)
    (backend : AgentBackendCall → Except String ρ) : Except R2RException ρ :=
  match backend
      (agent_backend_call registry quality_llm auth_user message messages
        search_mode search_settings rag_generation_config task_prompt_override
        include_title_if_available conversation_id tools
        max_tool_context_length use_system_context) with
  | .ok r => .ok r
  | .error e => .error ⟨e, 500⟩

/-- The backend call `reasoning_agent_app` builds: settings resolved
with `SearchMode.basic` and no overrides, `task_prompt_override=None`,
`include_title_if_available=False`, `use_system_context=False`,
`messages=None`, `reasoning_agent=True`. -/
def reasoning_backend_call (registry : Registry) (quality_llm : String)
    (auth_user : Scope) (message : Option Message)
    (rag_generation_config : GenerationConfig) (conversation_id : Option String)
    (tools : Option (List String)) (max_tool_context_length : Option Nat) :
    AgentBackendCall :=
  { message
    messages := none
    search_settings := prepare_search_settings registry auth_user .basic none
    rag_generation_config := applyDefaultModel quality_llm rag_generation_config
    task_prompt_override := none
    include_title_if_available := false
    max_tool_context_length
    conversation_id
    use_system_context := some false
    override_tools := tools
    reasoning_agent := true }

/-- `reasoning_agent_app`: build the fixed backend call and wrap any
backend failure into `R2RException(str(e), 500)`. -/
def reasoning_agent_app {ρ : Type} (registry : Registry) (quality_llm : String)
    (auth_user : Scope) (message : Option Message)
    (rag_generation_config : GenerationConfig) (conversation_id : Option String)
    (tools : Option (List String)) (max_tool_context_length : Option Nat)
    (backend : AgentBackendCall → Except String ρ) : Except R2RException ρ :=
  match backend
      (reasoning_backend_call registry quality_llm auth_user message
        rag_generation_config conversation_id tools max_tool_context_length) with
  | .ok r => .ok r
  | .error e => .error ⟨e, 500⟩

/-- The arguments `completion` hands to
`self.services.retrieval.completion`. -/
structure CompletionBackendCall where
  messages : List Message
  generation_config : GenerationConfig
  deriving DecidableEq, Repr

/-- `completion`: forward messages and the caller's generation config to
the completion backend verbatim — the endpoint contains no default-model
injection. -/
def completion (_quality_llm : String) (messages : List Message)
    (generation_config : GenerationConfig) : CompletionBackendCall :=
  { messages, generation_config }

/-! Concrete sample values used to exercise the theorems on closed
inputs. -/

/-- A sample caller scope: visibility restricted to one collection. -/
def scope0 : Scope := ⟨.pred "collection_id" "$eq" "c-1"⟩

/-- A sample registry assigning every preset mode the type defaults. -/
def reg0 : Registry := fun _ => SearchSettings.typeDefault

/-- A sample caller filter. -/
def filter0 : FilterExpr := .pred "document_id" "$eq" "doc-1"

/-- A sample caller settings body: `use_semantic_search` explicitly set
to the template's own default, a filter, a limit, and wholesale graph
settings; `use_fulltext_search` and `chunk_settings` left unset. -/
def ssIn0 : SearchSettingsInput :=
  { use_semantic_search := some true
    use_fulltext_search := none
    filters := some (some filter0)
    limit := some 5
    chunk_settings := none
    graph_settings := some { enabled := false, limit := 3 } }

/-- A sample generation config whose model the caller did not set. -/
def cfg0 : GenerationConfig :=
  { model := "default-model", model_in_fields_set := false, stream := false }

/-- A sample truth environment making every atomic predicate true. -/
def env0 : String → String → String → Bool := fun _ _ _ => true

/-- A sample backend that fails on every agent call. -/
def backend_fail : AgentBackendCall → Except String Unit :=
  fun _ => .error "upstream failure"

/-! Helper lemmas about the chunker. -/

theorem splitEvery_ne_nil {α : Type} (l : List α) (h : l ≠ []) :
    splitEvery l = l.take frameSize :: splitEvery (l.drop frameSize) := by
  match l, h with
  | x :: xs, _ => rw [splitEvery]

theorem splitEvery_flatten {α : Type} (l : List α) :
    (splitEvery l).flatten = l := by
  induction l using splitEvery.induct with
  | case1 => simp [splitEvery]
  | case2 x xs ih =>
      rw [splitEvery]
      simp [ih]

theorem splitEvery_sizes {α : Type} (l : List α) :
    ∀ f ∈ splitEvery l, f.length ≤ frameSize := by
  induction l using splitEvery.induct with
  | case1 => simp [splitEvery]
  | case2 x xs ih =>
      rw [splitEvery]
      intro f hf
      rcases List.mem_cons.mp hf with h | h
      · subst h
        exact List.length_take_le frameSize (x :: xs)
      · exact ih f h

theorem splitEvery_length {α : Type} (l : List α) :
    (splitEvery l).length = (l.length + 1023) / 1024 := by
  induction l using splitEvery.induct with
  | case1 => simp [splitEvery]
  | case2 x xs ih =>
      rw [splitEvery]
      by_cases hle : (x :: xs).length ≤ frameSize
      · have hd : (x :: xs).drop frameSize = [] := by
          rw [List.drop_eq_nil_iff]
          exact hle
        rw [hd]
        have hle' : xs.length + 1 ≤ 1024 := by simp [frameSize] at hle; omega
        simp only [splitEvery, List.length_cons, List.length_nil]
        exact (Nat.div_eq_of_lt_le (by omega) (by omega)).symm
      · have hgt : 1024 < xs.length + 1 := by
          simpa [frameSize] using Nat.lt_of_not_le hle
        simp only [List.length_cons, List.length_drop, frameSize] at ih ⊢
        rw [ih, show xs.length + 1 + 1023 = (xs.length + 1 - 1024 + 1023) + 1024 by omega,
          Nat.add_div_right _ (by norm_num)]

theorem chunkFragment_flatten {α : Type} (chunk : List α) :
    (chunkFragment chunk).flatten = chunk := by
  by_cases h : chunk.length > frameSize <;>
    simp [chunkFragment, h, splitEvery_flatten]

theorem stream_generator_flatten {α : Type} (frags : List (List α)) :
    (stream_generator frags).flatten = frags.flatten := by
  induction frags with
  | nil => rfl
  | cons f fs ih =>
      simp only [stream_generator, List.map_cons, List.flatten_cons] at ih ⊢
      simp [List.flatten_append, chunkFragment_flatten, ih]

theorem replicate_ne_nil_of_pos {α : Type} (n : Nat) (a : α) (h : 0 < n) :
    List.replicate n a ≠ [] := by
  rw [Ne, ← List.length_eq_zero, List.length_replicate]
  omega

theorem splitEvery_replicate_2600 :
    splitEvery (List.replicate 2600 (0 : Nat)) =
      [List.replicate 1024 0, List.replicate 1024 0, List.replicate 552 0] := by
  rw [splitEvery_ne_nil _ (replicate_ne_nil_of_pos 2600 0 (by norm_num)),
    show frameSize = 1024 from rfl, List.take_replicate, List.drop_replicate]
  norm_num
  rw [splitEvery_ne_nil _ (replicate_ne_nil_of_pos 1576 0 (by norm_num)),
    show frameSize = 1024 from rfl, List.take_replicate, List.drop_replicate]
  norm_num
  rw [splitEvery_ne_nil _ (replicate_ne_nil_of_pos 552 0 (by norm_num)),
    show frameSize = 1024 from rfl, List.take_replicate, List.drop_replicate]
  norm_num
  rw [splitEvery]

theorem pullFrame_of_closed {α : Type} (s : StreamGenState α)
    (h : s.closed = true) : pullFrame s = (none, s) := by
  simp [pullFrame, h]

theorem pullMany_of_closed {α : Type} (n : Nat) (s : StreamGenState α)
    (h : s.closed = true) : pullMany n s = s := by
  induction n with
  | zero => rfl
  | succ n ih =>
      rw [pullMany, pullFrame_of_closed s h]
      exact ih

/-- C3: each fragment of length `N ≤ 1024` passes through unchanged as
one frame; each fragment of length `N > 1024` splits into
`⌈N / 1024⌉` frames (computed as `(N + 1023) / 1024`) of size at most
1024 whose in-order concatenation is the fragment; the concatenation of
all emitted frames equals the concatenation of all input fragments; a
fragment of exact size 2600 yields exactly frames of sizes 1024, 1024,
552. -/
theorem chunker_resegmentation :
    (∀ (α : Type) (frag : List α), frag.length ≤ 1024 → chunkFragment frag = [frag])
    ∧ (∀ (α : Type) (frag : List α), 1024 < frag.length →
        (chunkFragment frag).length = (frag.length + 1023) / 1024
        ∧ (∀ f ∈ chunkFragment frag, f.length ≤ 1024)
        ∧ (chunkFragment frag).flatten = frag)
    ∧ (∀ (α : Type) (frags : List (List α)),
        (stream_generator frags).flatten = frags.flatten)
    ∧ (stream_generator [List.replicate 2600 (0 : Nat)]).map List.length
        = [1024, 1024, 552] := by
  refine ⟨?_, ?_, ?_, ?_⟩
  · intro α frag h
    have h' : ¬ frag.length > frameSize := by simp [frameSize]; omega
    simp [chunkFragment, h']
  · intro α frag h
    have h' : frag.length > frameSize := by
      simp only [frameSize]
      omega
    have e : chunkFragment frag = splitEvery frag := by
      simp only [chunkFragment]
      rw [if_pos h']
    refine ⟨?_, ?_, ?_⟩
    · rw [e, splitEvery_length]
    · intro f hf
      rw [e] at hf
      exact splitEvery_sizes frag f hf
    · rw [e, splitEvery_flatten]
  · intro α frags
    exact stream_generator_flatten frags
  · have h' : (List.replicate 2600 (0 : Nat)).length > frameSize := by
      rw [List.length_replicate]
      norm_num [frameSize]
    have e : chunkFragment (List.replicate 2600 (0 : Nat)) =
        splitEvery (List.replicate 2600 (0 : Nat)) := by
      simp only [chunkFragment]
      rw [if_pos h']
    simp only [stream_generator, List.map_cons, List.map_nil, List.flatten_cons,
      List.flatten_nil, List.append_nil, e, splitEvery_replicate_2600,
      List.length_replicate]

/-- C3 witness: the theorem applied at concrete fragments, discharging
both length hypotheses. -/
theorem chunker_resegmentation_witness :
    chunkFragment [0, 1, 2] = [[0, 1, 2]]
    ∧ (chunkFragment (List.replicate 2000 (0 : Nat))).length = 2 := by
  constructor
  · exact chunker_resegmentation.1 Nat [0, 1, 2] (by norm_num)
  · have h := (chunker_resegmentation.2.1 Nat (List.replicate 2000 0)
      (by rw [List.length_replicate]; norm_num)).1
    rw [List.length_replicate] at h
    norm_num at h
    exact h

/-! Helper lemmas about the dict-based merge. -/

theorem merge_search_settings_fields (base : SearchSettings) (o : SearchSettingsInput) :
    (merge_search_settings base o).use_semantic_search
        = o.use_semantic_search.getD base.use_semantic_search
    ∧ (merge_search_settings base o).use_fulltext_search
        = o.use_fulltext_search.getD base.use_fulltext_search
    ∧ (merge_search_settings base o).filters = o.filters.getD base.filters
    ∧ (merge_search_settings base o).limit = o.limit.getD base.limit
    ∧ (merge_search_settings base o).chunk_settings
        = o.chunk_settings.getD base.chunk_settings
    ∧ (merge_search_settings base o).graph_settings
        = o.graph_settings.getD base.graph_settings := by
  rcases o with ⟨o1, o2, o3, o4, o5, o6⟩
  rcases o1 with _ | v1 <;> rcases o2 with _ | v2 <;> rcases o3 with _ | v3 <;>
    rcases o4 with _ | v4 <;> rcases o5 with _ | v5 <;> rcases o6 with _ | v6 <;>
    simp [merge_search_settings, SearchSettings.ofDict, dictUpdate,
      SearchSettingsInput.dumpExcludeUnset, SearchSettings.model_dump, setKey,
      getB, getN, getFlt, getCs, getGs, List.lookup]

theorem effectiveBeforeFilters_preset (registry : Registry) (mode : SearchMode)
    (o : SearchSettingsInput) (h : mode ≠ SearchMode.custom) :
    effectiveBeforeFilters registry mode (some o)
      = merge_search_settings (registry mode) o := by
  cases mode with
  | basic => rfl
  | advanced => rfl
  | custom => exact absurd rfl h

/-- C2: for `basic`/`advanced` modes, resolution against the mode's
registered template is strictly field-level on the "explicitly set"
markers: every explicitly set top-level field takes the override's value
— even a value equal to the template's own — every unset field keeps the
template's value, and nested objects such as `chunk_settings` are
replaced wholesale. -/
theorem preset_merge_field_level (registry : Registry) (mode : SearchMode)
    (o : SearchSettingsInput)
    (h : mode = SearchMode.basic ∨ mode = SearchMode.advanced) :
    (effectiveBeforeFilters registry mode (some o)).use_semantic_search
        = o.use_semantic_search.getD (registry mode).use_semantic_search
    ∧ (effectiveBeforeFilters registry mode (some o)).use_fulltext_search
        = o.use_fulltext_search.getD (registry mode).use_fulltext_search
    ∧ (effectiveBeforeFilters registry mode (some o)).filters
        = o.filters.getD (registry mode).filters
    ∧ (effectiveBeforeFilters registry mode (some o)).limit
        = o.limit.getD (registry mode).limit
    ∧ (effectiveBeforeFilters registry mode (some o)).chunk_settings
        = o.chunk_settings.getD (registry mode).chunk_settings
    ∧ (effectiveBeforeFilters registry mode (some o)).graph_settings
        = o.graph_settings.getD (registry mode).graph_settings := by
  have hm : mode ≠ SearchMode.custom := by
    rcases h with h | h <;> subst h <;> intro hc <;> cases hc
  rw [effectiveBeforeFilters_preset registry mode o hm]
  exact merge_search_settings_fields (registry mode) o

/-- C9: delivering cancellation to the stream generator succeeds (the
`GeneratorExit` handler returns normally rather than raising), and after
the cancellation no number of further consumer pulls emits a frame or
requests another fragment from the producer. -/
theorem cancellation_halts_upstream (α : Type) (s : StreamGenState α) (n : Nat) :
    (closeGen s).1 = Except.ok ()
    ∧ (pullFrame (closeGen s).2).1 = none
    ∧ (pullMany n (closeGen s).2).requests = s.requests := by
  have hc : (closeGen s).2.closed = true := rfl
  refine ⟨rfl, ?_, ?_⟩
  · rw [pullFrame_of_closed _ hc]
  · rw [pullMany_of_closed n _ hc]
    rfl

/-- C2 witness: the theorem applied at mode `basic`, the type-default
template and the sample overrides: the explicitly set limit and graph
settings win, the explicitly set semantic flag equal to the template's
own default is kept as an override, the unset full-text flag and chunk
settings keep the template's values. -/
theorem preset_merge_field_level_witness :
    (SearchMode.basic = SearchMode.basic ∨ SearchMode.basic = SearchMode.advanced)
    ∧ (effectiveBeforeFilters reg0 .basic (some ssIn0)).limit = 5
    ∧ (effectiveBeforeFilters reg0 .basic (some ssIn0)).use_semantic_search = true
    ∧ (effectiveBeforeFilters reg0 .basic (some ssIn0)).use_fulltext_search = false
    ∧ (effectiveBeforeFilters reg0 .basic (some ssIn0)).chunk_settings
        = SearchSettings.typeDefault.chunk_settings
    ∧ (effectiveBeforeFilters reg0 .basic (some ssIn0)).graph_settings = ⟨false, 3⟩ := by
  have h := preset_merge_field_level reg0 .basic ssIn0 (Or.inl rfl)
  exact ⟨Or.inl rfl, h.2.2.2.1.trans rfl, h.1.trans rfl, h.2.1.trans rfl,
    h.2.2.2.2.1.trans rfl, h.2.2.2.2.2.trans rfl⟩

/-- C1: the filter written into the settings' `filters` field before
the downstream call is the logical AND of the caller's scope predicate
and the resolved settings' filter expression (the scope predicate alone
when there is none), so the effective filter always logically implies
the scope predicate. -/
theorem effective_filter_scoped (registry : Registry) (auth_user : Scope)
    (mode : SearchMode) (ss : Option SearchSettingsInput) :
    ((prepare_search_settings registry auth_user mode ss).filters
      = some (select_search_filters auth_user
          (effectiveBeforeFilters registry mode ss)))
    ∧ (select_search_filters auth_user (effectiveBeforeFilters registry mode ss)
      = match (effectiveBeforeFilters registry mode ss).filters with
        | none => auth_user.scopePredicate
        | some c => FilterExpr.and auth_user.scopePredicate c)
    ∧ ∀ env,
        (select_search_filters auth_user
          (effectiveBeforeFilters registry mode ss)).eval env = true →
        auth_user.scopePredicate.eval env = true := by
  refine ⟨rfl, rfl, ?_⟩
  intro env
  simp only [select_search_filters]
  cases hf : (effectiveBeforeFilters registry mode ss).filters with
  | none => exact fun h => h
  | some c =>
      simp only [FilterExpr.eval, Bool.and_eq_true]
      exact fun h => h.1

/-- C1 witness: the theorem applied at the sample scope, registry and
caller settings, with the all-true environment discharging the
evaluation hypothesis. -/
theorem effective_filter_scoped_witness :
    (select_search_filters scope0
        (effectiveBeforeFilters reg0 .custom (some ssIn0))).eval env0 = true
    ∧ scope0.scopePredicate.eval env0 = true :=
  ⟨rfl, (effective_filter_scoped reg0 scope0 .custom (some ssIn0)).2.2 env0 rfl⟩

/-- C5: in custom mode the resolved settings (before the filters field
is rewritten) are the caller-supplied settings verbatim, or the all-
type-defaults value when none were supplied; the result is independent
of the registry (no preset template is consulted), and
`resolve(custom, None, scope)` is all type defaults except `filters`,
which holds the scope predicate alone. -/
theorem custom_mode_verbatim (registry registry2 : Registry) (auth_user : Scope) :
    (∀ o : SearchSettingsInput,
        effectiveBeforeFilters registry .custom (some o) = o.materialize)
    ∧ effectiveBeforeFilters registry .custom none = SearchSettings.typeDefault
    ∧ (∀ ss, effectiveBeforeFilters registry .custom ss
        = effectiveBeforeFilters registry2 .custom ss)
    ∧ prepare_search_settings registry auth_user .custom none
      = { SearchSettings.typeDefault with filters := some auth_user.scopePredicate } :=
  ⟨fun _ => rfl, rfl, fun _ => rfl, rfl⟩

/-- C4 counterexample: the rag endpoint does not reject an empty query:
with query `""` it proceeds to settings resolution and hands the empty
query to the backend instead of raising the 400 rejection. -/
theorem rag_empty_query_reaches_backend :
    rag_app reg0 "q-model" scope0 "" .custom none cfg0 none false
      = Except.ok
          { query := ""
            search_settings := prepare_search_settings reg0 scope0 .custom none
            rag_generation_config := applyDefaultModel "q-model" cfg0
            task_prompt_override := none
            include_title_if_available := false }
    ∧ rag_app reg0 "q-model" scope0 "" .custom none cfg0 none false
        ≠ Except.error ⟨"Query cannot be empty", 400⟩ :=
  ⟨rfl, by simp [rag_app]⟩

/-- C4 amended: only the search endpoint rejects an empty query — with
a 400 `R2RException` raised before settings resolution and before any
backend call, for every mode, overrides and caller — while the rag
endpoint never rejects and forwards even an empty query to the backend;
the remaining call types take no query string. -/
theorem search_empty_query_rejected (registry : Registry) (auth_user : Scope)
    (mode : SearchMode) (ss : Option SearchSettingsInput) (quality_llm : String)
    (cfg : GenerationConfig) (tpo : Option String) (title : Bool) (query : String) :
    search_app registry auth_user "" mode ss
      = .error ⟨"Query cannot be empty", 400⟩
    ∧ (query ≠ "" → search_app registry auth_user query mode ss
        = .ok ⟨query, prepare_search_settings registry auth_user mode ss⟩)
    ∧ rag_app registry quality_llm auth_user query mode ss cfg tpo title
      = .ok { query
              search_settings := prepare_search_settings registry auth_user mode ss
              rag_generation_config := applyDefaultModel quality_llm cfg
              task_prompt_override := tpo
              include_title_if_available := title } := by
  refine ⟨rfl, ?_, rfl⟩
  intro h
  simp [search_app, h]

/-- C4 witness: a non-empty query passes the check and reaches the
search backend. -/
theorem search_empty_query_rejected_witness :
    ("Aristotle" : String) ≠ ""
    ∧ search_app reg0 scope0 "Aristotle" .custom none
      = .ok ⟨"Aristotle", prepare_search_settings reg0 scope0 .custom none⟩ :=
  ⟨by decide,
    (search_empty_query_rejected reg0 scope0 .custom none "q-model" cfg0 none false
      "Aristotle").2.1 (by decide)⟩

/-- C6 counterexample: the completion endpoint performs no default-model
injection — a caller config whose model field was not explicitly set
reaches the backend unchanged, not with the configured quality model. -/
theorem completion_no_model_injection :
    cfg0.model_in_fields_set = false
    ∧ (completion "configured-quality-model" [] cfg0).generation_config = cfg0
    ∧ (completion "configured-quality-model" [] cfg0).generation_config.model
        ≠ "configured-quality-model" :=
  ⟨rfl, rfl, by decide⟩

/-- C6 amended: the rag, agent and reasoning-agent calls inject the
configured default model exactly when the caller did not explicitly set
the config's model field and keep the caller's config untouched when it
did; the completion call passes the caller's generation config to the
backend unchanged, with no injection. -/
theorem default_model_injection (registry : Registry) (quality_llm : String)
    (auth_user : Scope) (query : String) (mode : SearchMode)
    (ss : Option SearchSettingsInput) (cfg : GenerationConfig)
    (tpo : Option String) (title : Bool) (message : Option Message)
    (messages : Option (List Message)) (conv : Option String)
    (tools : Option (List String)) (mtcl : Option Nat) (usc : Option Bool)
    (msgs : List Message) :
    (cfg.model_in_fields_set = false →
      applyDefaultModel quality_llm cfg = { cfg with model := quality_llm })
    ∧ (cfg.model_in_fields_set = true → applyDefaultModel quality_llm cfg = cfg)
    ∧ (rag_app registry quality_llm auth_user query mode ss cfg tpo title).map
        (fun c => c.rag_generation_config) = .ok (applyDefaultModel quality_llm cfg)
    ∧ (agent_backend_call registry quality_llm auth_user message messages mode ss
        cfg tpo title conv tools mtcl usc).rag_generation_config
      = applyDefaultModel quality_llm cfg
    ∧ (reasoning_backend_call registry quality_llm auth_user message cfg conv tools
        mtcl).rag_generation_config = applyDefaultModel quality_llm cfg
    ∧ (completion quality_llm msgs cfg).generation_config = cfg := by
  refine ⟨?_, ?_, rfl, rfl, rfl, rfl⟩ <;> intro h <;> simp [applyDefaultModel, h]

/-- C6 witness: the amended theorem applied at the sample unset config:
the quality model is injected for the rag call. -/
theorem default_model_injection_witness :
    cfg0.model_in_fields_set = false
    ∧ applyDefaultModel "configured-quality-model" cfg0
      = { cfg0 with model := "configured-quality-model" } :=
  ⟨rfl,
    (default_model_injection reg0 "configured-quality-model" scope0 "q" .custom none
      cfg0 none false none none none none none none []).1 rfl⟩

theorem and_ne_right (a b : FilterExpr) : FilterExpr.and a b ≠ b := by
  intro h
  have hs := congrArg sizeOf h
  simp [FilterExpr.and.sizeOf_spec] at hs

/-- C7 counterexample: in custom mode the caller-supplied settings
object is the very object resolution returns, so the
`effective_settings.filters` assignment rewrites the caller's object in
place — after the call it no longer equals what the caller supplied. -/
theorem custom_mode_mutates_caller :
    callerSettingsAfter reg0 scope0 .custom (some ssIn0)
      ≠ some ssIn0.materialize := by
  decide

/-- C7 amended: resolution is a pure function of (mode, overrides,
scope, registry), and in `basic`/`advanced` modes it leaves the
caller-supplied overrides object unchanged; in `custom` mode, however,
the caller-supplied settings object itself becomes the effective
settings, so its filters field is rewritten in place — whenever the
caller supplied a filter, the object observably differs after the
call. -/
theorem resolution_frame (registry : Registry) (auth_user : Scope)
    (ss : Option SearchSettingsInput) :
    (∀ mode, mode ≠ SearchMode.custom →
        callerSettingsAfter registry auth_user mode ss
          = ss.map SearchSettingsInput.materialize)
    ∧ (∀ o f, ss = some o → o.filters = some (some f) →
        callerSettingsAfter registry auth_user .custom ss
          ≠ some o.materialize) := by
  constructor
  · intro mode hm
    cases mode with
    | basic => cases ss <;> rfl
    | advanced => cases ss <;> rfl
    | custom => exact absurd rfl hm
  · intro o f hss hf hEq
    subst hss
    have hmat : o.materialize.filters = some f := by
      simp [SearchSettingsInput.materialize, hf]
    have h2 : prepare_search_settings registry auth_user .custom (some o)
        = o.materialize := by
      have h3 : callerSettingsAfter registry auth_user .custom (some o)
          = some (prepare_search_settings registry auth_user .custom (some o)) := rfl
      rw [h3] at hEq
      exact Option.some.inj hEq
    have hp : (prepare_search_settings registry auth_user .custom (some o)).filters
        = some (FilterExpr.and auth_user.scopePredicate f) := by
      simp [prepare_search_settings, effectiveBeforeFilters,
        select_search_filters, hmat]
    have h4 := congrArg SearchSettings.filters h2
    rw [hp, hmat] at h4
    exact and_ne_right auth_user.scopePredicate f (Option.some.inj h4)

/-- C7 witness: the amended theorem applied at the sample caller
settings, which carry a filter, in custom mode. -/
theorem resolution_frame_witness :
    ssIn0.filters = some (some filter0)
    ∧ callerSettingsAfter reg0 scope0 .custom (some ssIn0)
        ≠ some ssIn0.materialize :=
  ⟨rfl, (resolution_frame reg0 scope0 (some ssIn0)).2 ssIn0 filter0 rfl rfl⟩

/-- C8: any failure the backend raises while orchestrating an agent or
reasoning-agent call surfaces to the caller as a single `R2RException`
with status 500 whose message is the original failure's message, and
backend successes pass through untouched — nothing is swallowed or
downgraded. -/
theorem agent_failure_wrapped (ρ : Type) (registry : Registry)
    (quality_llm : String) (auth_user : Scope) (message : Option Message)
    (messages : Option (List Message)) (mode : SearchMode)
    (ss : Option SearchSettingsInput) (cfg : GenerationConfig)
    (tpo : Option String) (title : Bool) (conv : Option String)
    (tools : Option (List String)) (mtcl : Option Nat) (usc : Option Bool)
    (backend : AgentBackendCall → Except String ρ) :
    (∀ e : String,
        backend (agent_backend_call registry quality_llm auth_user message messages
          mode ss cfg tpo title conv tools mtcl usc) = .error e →
        agent_app registry quality_llm auth_user message messages mode ss cfg tpo
          title conv tools mtcl usc backend = .error ⟨e, 500⟩)
    ∧ (∀ r : ρ,
        backend (agent_backend_call registry quality_llm auth_user message messages
          mode ss cfg tpo title conv tools mtcl usc) = .ok r →
        agent_app registry quality_llm auth_user message messages mode ss cfg tpo
          title conv tools mtcl usc backend = .ok r)
    ∧ (∀ e : String,
        backend (reasoning_backend_call registry quality_llm auth_user message cfg
          conv tools mtcl) = .error e →
        reasoning_agent_app registry quality_llm auth_user message cfg conv tools
          mtcl backend = .error ⟨e, 500⟩)
    ∧ (∀ r : ρ,
        backend (reasoning_backend_call registry quality_llm auth_user message cfg
          conv tools mtcl) = .ok r →
        reasoning_agent_app registry quality_llm auth_user message cfg conv tools
          mtcl backend = .ok r) := by
  refine ⟨?_, ?_, ?_, ?_⟩ <;> intro x h <;>
    simp [agent_app, reasoning_agent_app, h]

/-- C8 witness: the theorem applied at a concrete failing backend: the
failure surfaces as the 500 exception with the original message. -/
theorem agent_failure_wrapped_witness :
    backend_fail (agent_backend_call reg0 "q-model" scope0 none none .custom none
      cfg0 none true none none none none) = .error "upstream failure"
    ∧ agent_app reg0 "q-model" scope0 none none .custom none cfg0 none true none
        none none none backend_fail = .error ⟨"upstream failure", 500⟩ :=
  ⟨rfl,
    (agent_failure_wrapped Unit reg0 "q-model" scope0 none none .custom none cfg0
      none true none none none none backend_fail).1 "upstream failure" rfl⟩

/-- C10: the reasoning-agent endpoint resolves its search settings with
mode `basic` and no caller overrides — independent of every
caller-supplied argument — and always calls the backend with
`task_prompt_override = None`, `include_title_if_available = False` and
`use_system_context = False`. -/
theorem reasoning_agent_fixed (registry : Registry) (quality_llm : String)
    (auth_user : Scope) (message : Option Message) (cfg : GenerationConfig)
    (conv : Option String) (tools : Option (List String)) (mtcl : Option Nat) :
    (reasoning_backend_call registry quality_llm auth_user message cfg conv tools
        mtcl).search_settings = prepare_search_settings registry auth_user .basic none
    ∧ (reasoning_backend_call registry quality_llm auth_user message cfg conv tools
        mtcl).task_prompt_override = none
    ∧ (reasoning_backend_call registry quality_llm auth_user message cfg conv tools
        mtcl).include_title_if_available = false
    ∧ (reasoning_backend_call registry quality_llm auth_user message cfg conv tools
        mtcl).use_system_context = some false
    ∧ (reasoning_backend_call registry quality_llm auth_user message cfg conv tools
        mtcl).messages = none
    ∧ (reasoning_backend_call registry quality_llm auth_user message cfg conv tools
        mtcl).reasoning_agent = true :=
  ⟨rfl, rfl, rfl, rfl, rfl, rfl⟩

end R2R
